import Mathlib

/-!
Shallow embedding of the pulley-core rule-based validation engine
(src/lib/pulley/rules/rule.js and the variant in src/unnamed/part_004)
together with the built-in predicate libraries the claims mention
(filesystem.js, strings.js, and the key rules).

Modelling conventions:
* A JS rule-validation outcome is either a resolved promise carrying a
  narrative string (`Outcome.pass`) or a rejected promise carrying an
  error message (`Outcome.fail`).  Asynchrony plays no semantic role for
  these claims, so promises are collapsed to their settled value.
* A JS `Rule` object is a record of `name`, `brief` and `test`.  The
  `test` field's type is kept as a parameter `τ` so that operations
  which must not inspect the test (such as `extractRule`) can be stated
  generically over it.
* `makeInverseRule` in the source aliases its argument
  (`const invertedRule = rule;`), overwrites `name`, `brief` and `test`
  on that shared object, and has no return statement (so the call
  evaluates to `undefined`).  It is embedded as a state transformer:
  `InverseRuleCall.ruleAfter` is the state of the aliased rule object
  after the call, and `InverseRuleCall.returnValue` is the value the
  call expression itself evaluates to (`none` models `undefined`).
* Calling `.test` on a JS value that is not a rule raises a `TypeError`;
  `validateRule` therefore returns `Except EngineError Outcome`.
-/

/-- Settled value of a rule-validation promise: resolution carries a
human-readable success narrative, rejection carries a failure reason
(the `Error.message`). -/
inductive Outcome where
  | pass (narrative : String)
  | fail (reason : String)
deriving DecidableEq, Repr

/-- The `Rule` constructor from rule.js: stores `name`, `brief` and
`test` without validation.  `τ` is the type of the stored test
callback. -/
structure Rule (τ : Type) where
  name : String
  brief : String
  test : τ

/-- A zero-or-more-argument asynchronous test callback, with its settled
result collapsed to an `Outcome`.  `α` is the type of the positional
arguments a rule reference can carry. -/
abbrev Test (α : Type) := List α → Outcome

/-- A JS value standing in rule position: an actual `Rule` instance,
`undefined`, or some other value carrying no invocable `test`. -/
inductive JsRef (τ α : Type) where
  | rule (r : Rule τ)
  | undef
  | other (v : α)

/-- A rule reference as accepted by `validateRule` / `extractRule`:
either a bare (non-array) value, or an array whose head is the value in
rule position and whose remaining elements are positional arguments. -/
inductive RuleRef (τ α : Type) where
  | bare (v : JsRef τ α)
  | seq (head : JsRef τ α) (args : List α)

/-- Engine-level error: the `TypeError` raised when JS invokes `.test`
on a value that has no invocable test function. -/
inductive EngineError where
  | typeError (msg : String)
deriving DecidableEq, Repr

/-- `validateRule` from rule.js / part_004: if the reference is an
array, the head is taken as the rule instance and the tail as the test
parameters; otherwise the reference itself is the rule instance and the
parameter list is empty.  It then returns `ruleInstance.test(...testParams)`
unmodified.  When the value in rule position is not a rule, the
attribute access `.test` yields no function and the call raises a
`TypeError` instead of producing an outcome. -/
def validateRule {α : Type} : RuleRef (Test α) α → Except EngineError Outcome
  | RuleRef.bare (JsRef.rule r) => Except.ok (r.test [])
  | RuleRef.bare JsRef.undef =>
      Except.error (EngineError.typeError ("ruleInstance.test is not a function"))
  | RuleRef.bare (JsRef.other _) =>
      Except.error (EngineError.typeError ("ruleInstance.test is not a function"))
  | RuleRef.seq (JsRef.rule r) args => Except.ok (r.test args)
  | RuleRef.seq JsRef.undef _ =>
      Except.error (EngineError.typeError ("ruleInstance.test is not a function"))
  | RuleRef.seq (JsRef.other _) _ =>
      Except.error (EngineError.typeError ("ruleInstance.test is not a function"))

/-- `extractRule` from part_004: returns `rule[0]` when the reference is
an array and the reference itself otherwise.  It is generic in the test
payload `τ`, exactly because the source never looks at `.test`. -/
def extractRule {τ α : Type} : RuleRef τ α → JsRef τ α
  | RuleRef.bare v => v
  | RuleRef.seq head _ => head

/-- JS `x || dflt` for `x` a string or `undefined`: the default is used
when `x` is `undefined` or the (falsy) empty string. -/
def jsStringOr (v : Option String) (dflt : String) : String :=
  match v with
  | some s => if s = "" then dflt else s
  | none => dflt

/-- Result of one call to `makeInverseRule`: the state of the aliased
rule object after the call, and the value the call expression evaluates
to (`none` = `undefined`, since the arrow-function body has no return
statement). -/
structure InverseRuleCall (α : Type) where
  ruleAfter : Rule (Test α)
  returnValue : Option (Rule (Test α))

/-- `makeInverseRule` from rule.js / part_004.  The source aliases the
input rule, captures `originalTest = rule.test`, overwrites `name` and
`brief` (defaulting to `Not ...` through JS `||`), and installs a new
test that returns `err.message` when the original test rejects and
throws `new Error(result)` when it resolves with `result`.  The arrow
body has no return statement, so the call itself yields `undefined`. -/
def makeInverseRule {α : Type} (rule : Rule (Test α)) (name brief : Option String) :
    InverseRuleCall α :=
  let originalTest := rule.test
  { ruleAfter :=
      { name := jsStringOr name ("Not " ++ rule.name)
        brief := jsStringOr brief ("Not " ++ rule.brief)
        test := fun params =>
          match originalTest params with
          | Outcome.fail r => Outcome.pass r
          | Outcome.pass n => Outcome.fail n }
    returnValue := none }

/-- Renames the stored test callback of a rule; used to state that an
operation never inspects the test. -/
def mapRuleTest {τ σ : Type} (f : τ → σ) (r : Rule τ) : Rule σ :=
  { name := r.name, brief := r.brief, test := f r.test }

/-- Lifts `mapRuleTest` over a value in rule position. -/
def mapJsRefTest {τ σ α : Type} (f : τ → σ) : JsRef τ α → JsRef σ α
  | JsRef.rule r => JsRef.rule (mapRuleTest f r)
  | JsRef.undef => JsRef.undef
  | JsRef.other v => JsRef.other v

/-- Lifts `mapRuleTest` over a whole rule reference. -/
def mapRuleRefTest {τ σ α : Type} (f : τ → σ) : RuleRef τ α → RuleRef σ α
  | RuleRef.bare v => RuleRef.bare (mapJsRefTest f v)
  | RuleRef.seq head args => RuleRef.seq (mapJsRefTest f head) args

/-- Bindings exported by the filesystem rule module after its top-level
code has run: the (mutated) `pathExists` rule object and whatever value
the `makeInverseRule` call produced for `pathDoesNotExist`. -/
structure FilesystemModule (α : Type) where
  pathExists : Rule (Test α)
  pathDoesNotExist : Option (Rule (Test α))

/-- Top-level initialization of filesystem.js, parameterized by the
actual I/O-performing test callback of `pathExists` (its body touches
the real filesystem, which stays external to the embedding).  The module
constructs `pathExists` with its literal name and brief, then binds
`pathDoesNotExist` to the value of
`makeInverseRule(pathExists, 'Path does not exist', 'Confirms that path does not exist')`,
a call that also mutates the shared `pathExists` object. -/
def filesystemInit {α : Type} (pathExistsTest : Test α) : FilesystemModule α :=
  let pathExists0 : Rule (Test α) :=
    { name := "Path exists", brief := "Confirms that path exists", test := pathExistsTest }
  let call := makeInverseRule pathExists0
    (some ("Path does not exist")) (some ("Confirms that path does not exist"))
  { pathExists := call.ruleAfter, pathDoesNotExist := call.returnValue }

/-- A JS object, abstracted to its own enumerable properties: an
association list from key names to (numeric) values.
`hasOwnProperty` only consults the key names. -/
abbrev JsObject := List (String × Int)

/-- JS `obj.hasOwnProperty(key)`. -/
def hasOwnProperty (obj : JsObject) (key : String) : Bool :=
  (obj.map Prod.fst).contains key

/-- Test callback of the `hasOneOfKeys` rule: filters `keys` down to
those the object carries, fails when none or more than one overlap, and
passes otherwise.  Messages join the key list with `', '` as
`Array.join` does. -/
def hasOneOfKeysTest (obj : JsObject) (keys : List String) : Outcome :=
  let overlappedKeys := keys.filter (fun key => hasOwnProperty obj key)
  if overlappedKeys.length = 0 then
    Outcome.fail ("Must specify one of missing keys: " ++ String.intercalate (", ") keys)
  else if overlappedKeys.length > 1 then
    Outcome.fail ("More than one of keys specified: " ++ String.intercalate (", ") keys)
  else
    Outcome.pass ("Specified one of keys: " ++ String.intercalate (", ") keys)

/-- The `hasOneOfKeys` rule value. -/
def hasOneOfKeys : Rule (JsObject → List String → Outcome) :=
  { name := "Has one of keys"
    brief := "Confirms object has exactly one of the required keys"
    test := hasOneOfKeysTest }

/-- Splits a character list on `/`, accumulating the current segment in
reverse. -/
def splitSegmentsAux : List Char → List Char → List String
  | [], acc => [String.mk acc.reverse]
  | c :: cs, acc =>
      if c = '/' then String.mk acc.reverse :: splitSegmentsAux cs []
      else splitSegmentsAux cs (c :: acc)

/-- Splits a path on `/`, discarding empty segments. -/
def splitPath (p : String) : List String :=
  (splitSegmentsAux p.toList []).filter (fun s => s != "")

/-- Drops the longest common leading run of segments from both lists. -/
def dropCommonSegments : List String → List String → List String × List String
  | [], ys => ([], ys)
  | x :: xs, [] => (x :: xs, [])
  | x :: xs, y :: ys =>
      if x = y then dropCommonSegments xs ys else (x :: xs, y :: ys)

/-- Node's posix `path.relative(fromPath, toPath)`, modelled for inputs
that are already absolute and normalized (no `.`/`..` segments, as in
the claims' inputs): after dropping the common prefix, each remaining
segment of `fromPath` contributes a `..` and the remaining segments of
`toPath` follow, joined with `/`; identical paths give the empty
string. -/
def path_relative (fromPath toPath : String) : String :=
  let rest := dropCommonSegments (splitPath fromPath) (splitPath toPath)
  String.intercalate ("/") (rest.1.map (fun _ => "..") ++ rest.2)

/-- Character-list prefix test, used to model JS `String.startsWith`. -/
def isCharPrefixOf : List Char → List Char → Bool
  | [], _ => true
  | _ :: _, [] => false
  | c :: cs, d :: ds => c == d && isCharPrefixOf cs ds

/-- JS `s.startsWith(pre)`. -/
def strStartsWith (s pre : String) : Bool :=
  isCharPrefixOf pre.toList s.toList

/-- Node's posix `path.isAbsolute`. -/
def path_isAbsolute (p : String) : Bool :=
  strStartsWith p ("/")

/-- Test callback of the `isChildOfPath` rule: computes
`path.relative(filepathA, filepathB)` and declares a child exactly when
that string is truthy (non-empty), does not start with `..`, and is not
absolute. -/
def isChildOfPathTest (filepathA filepathB : String) : Outcome :=
  let relative := path_relative filepathA filepathB
  let isChild :=
    (relative != "") && (!(strStartsWith relative (".."))) && (!(path_isAbsolute relative))
  if isChild then
    Outcome.pass ("\x27" ++ filepathB ++ "\x27 is a child of \x27" ++ filepathA ++ "\x27")
  else
    Outcome.fail ("\x27" ++ filepathB ++ "\x27 is not a child of \x27" ++ filepathA ++ "\x27")

/-- The `isChildOfPath` rule value. -/
def isChildOfPath : Rule (String → String → Outcome) :=
  { name := "Path is a child of another path"
    brief := "Confirms that a filepath exists within the hierarchy of another path"
    test := isChildOfPathTest }

/-- Test callback of the `stringIsMinLength` rule: passes when
`str.length >= length`, otherwise fails with a message reporting the
actual length and the required minimum. -/
def stringIsMinLengthTest (str : String) (len : Nat) : Outcome :=
  if str.length >= len then
    Outcome.pass ("\x27" ++ str ++ "\x27 length is " ++ toString len)
  else
    Outcome.fail ("\x27" ++ str ++ "\x27 length is " ++ toString str.length ++
      ", not " ++ toString len ++ " or greater")

/-- The `stringIsMinLength` rule value. -/
def stringIsMinLength : Rule (String → Nat → Outcome) :=
  { name := "String is minimum length"
    brief := "Confirms string is at least the minimum length"
    test := stringIsMinLengthTest }

/-- A concrete sample rule used to exhibit the observable effect of one
`makeInverseRule` call. -/
def sampleSourceRule : Rule (Test String) :=
  { name := "Sample", brief := "Sample brief", test := fun _ => Outcome.pass ("ok") }

/-- A concrete rule whose test always passes; input for witnesses. -/
def alwaysPassRule : Rule (Test Nat) :=
  { name := "P", brief := "always passes", test := fun _ => Outcome.pass ("yes") }

/-- A concrete rule whose test always fails; input for witnesses. -/
def alwaysFailRule : Rule (Test Nat) :=
  { name := "Q", brief := "always fails", test := fun _ => Outcome.fail ("no") }

/-- Claim C1: the claim says `makeInverseRule(P, name?, brief?)` returns
a new, independent predicate value and leaves the source rule P
untouched.  On the code this is false: the call expression evaluates to
`undefined` (no return statement), and the source rule object itself --
aliased by `const invertedRule = rule` -- ends the call with a new name,
brief and test.  This theorem evaluates the code at the failing input
`sampleSourceRule`. -/
theorem makeInverseRule_mutates_source_and_returns_undefined :
    (makeInverseRule sampleSourceRule none none).returnValue = none ∧
    (makeInverseRule sampleSourceRule none none).ruleAfter.name = "Not Sample" ∧
    (makeInverseRule sampleSourceRule none none).ruleAfter.brief = "Not Sample brief" ∧
    (makeInverseRule sampleSourceRule none none).ruleAfter.test [] = Outcome.fail ("ok") ∧
    sampleSourceRule.name = "Sample" ∧
    sampleSourceRule.test [] = Outcome.pass ("ok") :=
  ⟨rfl, rfl, rfl, rfl, rfl, rfl⟩

/-- Claim C2: the test installed by `makeInverseRule` passes with
narrative exactly R whenever the source test fails with reason R, fails
with reason exactly N whenever the source test passes with narrative N,
and always settles in one of those two outcome categories. -/
theorem makeInverseRule_inverts_outcomes {α : Type} (P : Rule (Test α))
    (nm bf : Option String) (args : List α) :
    (∀ r, P.test args = Outcome.fail r →
      (makeInverseRule P nm bf).ruleAfter.test args = Outcome.pass r) ∧
    (∀ n, P.test args = Outcome.pass n →
      (makeInverseRule P nm bf).ruleAfter.test args = Outcome.fail n) ∧
    ((∃ s, (makeInverseRule P nm bf).ruleAfter.test args = Outcome.pass s) ∨
     (∃ s, (makeInverseRule P nm bf).ruleAfter.test args = Outcome.fail s)) := by
  refine ⟨?_, ?_, ?_⟩
  · intro r h
    simp [makeInverseRule, h]
  · intro n h
    simp [makeInverseRule, h]
  · cases h : P.test args with
    | pass n => exact Or.inr ⟨n, by simp [makeInverseRule, h]⟩
    | fail r => exact Or.inl ⟨r, by simp [makeInverseRule, h]⟩

/-- Witness for C2 at concrete rules: inverting an always-failing test
passes with its reason, inverting an always-passing test fails with its
narrative. -/
theorem makeInverseRule_inverts_outcomes_witness :
    (makeInverseRule alwaysFailRule none none).ruleAfter.test [] = Outcome.pass ("no") ∧
    (makeInverseRule alwaysPassRule none none).ruleAfter.test [] = Outcome.fail ("yes") :=
  ⟨(makeInverseRule_inverts_outcomes alwaysFailRule none none []).1 ("no") rfl,
   (makeInverseRule_inverts_outcomes alwaysPassRule none none []).2.1 ("yes") rfl⟩

/-- Claim C3: `validateRule` invokes a bare predicate with no arguments,
invokes the head of a sequence reference with exactly the tail as
arguments in order, and in both cases returns the outcome of the test
itself, unmodified. -/
theorem validateRule_dispatches_to_test {α : Type} :
    (∀ r : Rule (Test α),
      validateRule (RuleRef.bare (JsRef.rule r)) = Except.ok (r.test [])) ∧
    (∀ (r : Rule (Test α)) (args : List α),
      validateRule (RuleRef.seq (JsRef.rule r) args) = Except.ok (r.test args)) :=
  ⟨fun _ => rfl, fun _ _ => rfl⟩

/-- Claim C4: inverting a rule and then inverting the resulting rule
again yields a test behaviorally equivalent to the original on every
input: same pass/fail outcome with the same narrative or reason
(name and brief are not asserted). -/
theorem makeInverseRule_involutive_on_outcomes {α : Type} (P : Rule (Test α))
    (nm1 bf1 nm2 bf2 : Option String) (args : List α) :
    (makeInverseRule (makeInverseRule P nm1 bf1).ruleAfter nm2 bf2).ruleAfter.test args
      = P.test args := by
  cases h : P.test args <;> simp [makeInverseRule, h]

/-- Claim C5: `extractRule` returns a bare reference unchanged and the
first element of a sequence reference; it is uniform in the test payload
(stated both by its genericity in `τ` and by commutation with an
arbitrary renaming of every stored test), so it can never invoke a
test. -/
theorem extractRule_returns_head_without_invoking_test {τ σ α : Type} :
    (∀ v : JsRef τ α, extractRule (RuleRef.bare v) = v) ∧
    (∀ (head : JsRef τ α) (args : List α),
      extractRule (RuleRef.seq head args) = head) ∧
    (∀ (f : τ → σ) (ref : RuleRef τ α),
      extractRule (mapRuleRefTest f ref) = mapJsRefTest f (extractRule ref)) := by
  refine ⟨fun _ => rfl, fun _ _ => rfl, fun f ref => ?_⟩
  cases ref <;> rfl

/-- Claim C6: after the filesystem rule module initializes, the
`makeInverseRule(pathExists, ...)` call has produced `undefined`, so the
exported `pathDoesNotExist` is not a predicate value; evaluating an
undefined reference, bare or sequence-form, raises the engine-level
`TypeError` rather than a Pass or Fail outcome; and the exported
`pathExists` object now carries the overridden name and brief and the
inverted test installed by that same call. -/
theorem filesystem_pathDoesNotExist_is_undefined {α : Type} (t : Test α) :
    (filesystemInit t).pathDoesNotExist = none ∧
    validateRule (RuleRef.bare (JsRef.undef : JsRef (Test α) α))
      = Except.error (EngineError.typeError ("ruleInstance.test is not a function")) ∧
    (∀ args : List α, validateRule (RuleRef.seq (JsRef.undef : JsRef (Test α) α) args)
      = Except.error (EngineError.typeError ("ruleInstance.test is not a function"))) ∧
    (filesystemInit t).pathExists.name = "Path does not exist" ∧
    (filesystemInit t).pathExists.brief = "Confirms that path does not exist" ∧
    (∀ args, (filesystemInit t).pathExists.test args
      = (match t args with
         | Outcome.pass n => Outcome.fail n
         | Outcome.fail r => Outcome.pass r)) := by
  refine ⟨rfl, rfl, fun _ => rfl, rfl, rfl, fun args => ?_⟩
  cases h : t args <;> simp [filesystemInit, makeInverseRule, h]

/-- Witness for C6 at a concrete test callback. -/
theorem filesystem_pathDoesNotExist_is_undefined_witness :
    (filesystemInit (fun _ : List String => Outcome.pass ("e"))).pathDoesNotExist
      = none :=
  (filesystem_pathDoesNotExist_is_undefined (fun _ : List String => Outcome.pass ("e"))).1

/-- Claim C7: a sequence reference whose first element is not a
predicate -- some non-rule value or `undefined` -- makes `validateRule`
raise the engine-level `TypeError` immediately; it is never coerced into
a Pass or Fail outcome. -/
theorem validateRule_malformed_head_errors {α : Type} :
    (∀ (v : α) (args : List α), validateRule (RuleRef.seq (JsRef.other v) args)
      = Except.error (EngineError.typeError ("ruleInstance.test is not a function"))) ∧
    (∀ args : List α, validateRule (RuleRef.seq (JsRef.undef : JsRef (Test α) α) args)
      = Except.error (EngineError.typeError ("ruleInstance.test is not a function"))) :=
  ⟨fun _ _ => rfl, fun _ => rfl⟩

/-- Claim C8: the `hasOneOfKeys` test passes on object with key `a` and
keys `[a, b]`, fails on the object with both keys, and fails on the
empty object. -/
theorem hasOneOfKeys_examples :
    hasOneOfKeys.test [("a", 1)] ["a", "b"]
      = Outcome.pass ("Specified one of keys: a, b") ∧
    hasOneOfKeys.test [("a", 1), ("b", 2)] ["a", "b"]
      = Outcome.fail ("More than one of keys specified: a, b") ∧
    hasOneOfKeys.test [] ["a", "b"]
      = Outcome.fail ("Must specify one of missing keys: a, b") := by
  refine ⟨?_, ?_, ?_⟩ <;> decide

/-- Claim C9: the `isChildOfPath` test passes for parent `/x/y` and
child `/x/y/z`, fails for child `/x/w`, and fails when the child equals
the parent (empty relative difference). -/
theorem isChildOfPath_examples :
    isChildOfPath.test "/x/y" "/x/y/z"
      = Outcome.pass ("\x27/x/y/z\x27 is a child of \x27/x/y\x27") ∧
    isChildOfPath.test "/x/y" "/x/w"
      = Outcome.fail ("\x27/x/w\x27 is not a child of \x27/x/y\x27") ∧
    isChildOfPath.test "/x/y" "/x/y"
      = Outcome.fail ("\x27/x/y\x27 is not a child of \x27/x/y\x27") := by
  refine ⟨?_, ?_, ?_⟩ <;> decide

/-- Claim C10: the `stringIsMinLength` test passes on `abc` with minimum
3 and fails on `ab` with minimum 3, with a reason reporting the actual
length of the string, which is 2. -/
theorem stringIsMinLength_examples :
    stringIsMinLength.test "abc" 3 = Outcome.pass ("\x27abc\x27 length is 3") ∧
    stringIsMinLength.test "ab" 3
      = Outcome.fail ("\x27ab\x27 length is " ++ toString (String.length ("ab"))
          ++ ", not 3 or greater") ∧
    toString (String.length ("ab")) = "2" :=
  ⟨rfl, rfl, rfl⟩
